import Mathlib

/-
Verification of the pyledriver alarm-controller core against its
specification.  The Python sources (stateMachine.py, listeners.py) are
shallowly embedded below: pure fragments become Lean functions, side
effects become explicit event traces, and the seven-node state graph is
represented by an enumeration of state names (the graph is built once and
each state name is unique, so a name identifies a node).
-/

/-- The _SIGNALS enumeration from stateMachine.py (constructor names follow
the source, including the TIMOUT spelling). -/
inductive Signal where
  | ARM
  | INSTANT_ARM
  | LOCK
  | INSTANT_LOCK
  | DISARM
  | TIMOUT
  | TRIP
deriving DecidableEq, Fintype, Repr

/-- The seven states constructed in StateMachine.__init__ (stateObjs list). -/
inductive StateName where
  | disarmed
  | armedCountdown
  | armed
  | lockedCountdown
  | locked
  | trippedCountdown
  | tripped
deriving DecidableEq, Fintype, Repr

/-- The name attribute of each _State object, as given in the stateObjs
list in StateMachine.__init__. -/
def pyName : StateName → String
  | .disarmed => "disarmed"
  | .armedCountdown => "armedCountdown"
  | .armed => "armed"
  | .lockedCountdown => "lockedCountdown"
  | .locked => "locked"
  | .trippedCountdown => "trippedCountdown"
  | .tripped => "tripped"

/-- The transition table built by the addTransition calls in
StateMachine.__init__ (stateMachine.py lines 249 to 287).  Each line below
corresponds to one addTransition call; absent pairs are none, matching an
absent key in the _transTbl dict. -/
def transTbl : StateName → Signal → Option StateName
  | .disarmed, .ARM => some .armedCountdown
  | .disarmed, .INSTANT_ARM => some .armed
  | .disarmed, .LOCK => some .lockedCountdown
  | .disarmed, .INSTANT_LOCK => some .locked
  | .armedCountdown, .DISARM => some .disarmed
  | .armedCountdown, .TIMOUT => some .armed
  | .armedCountdown, .INSTANT_ARM => some .armed
  | .armedCountdown, .LOCK => some .lockedCountdown
  | .armedCountdown, .INSTANT_LOCK => some .locked
  | .armed, .DISARM => some .disarmed
  | .armed, .TRIP => some .trippedCountdown
  | .armed, .LOCK => some .lockedCountdown
  | .armed, .INSTANT_LOCK => some .locked
  | .lockedCountdown, .DISARM => some .disarmed
  | .lockedCountdown, .TIMOUT => some .locked
  | .lockedCountdown, .INSTANT_LOCK => some .locked
  | .lockedCountdown, .ARM => some .armedCountdown
  | .lockedCountdown, .INSTANT_ARM => some .armed
  | .locked, .DISARM => some .disarmed
  | .locked, .TRIP => some .trippedCountdown
  | .locked, .ARM => some .armedCountdown
  | .locked, .INSTANT_ARM => some .armed
  | .trippedCountdown, .DISARM => some .disarmed
  | .trippedCountdown, .TIMOUT => some .tripped
  | .trippedCountdown, .ARM => some .armed
  | .trippedCountdown, .INSTANT_ARM => some .armed
  | .trippedCountdown, .LOCK => some .locked
  | .trippedCountdown, .INSTANT_LOCK => some .locked
  | .tripped, .DISARM => some .disarmed
  | .tripped, .ARM => some .armed
  | .tripped, .INSTANT_ARM => some .armed
  | .tripped, .LOCK => some .locked
  | .tripped, .INSTANT_LOCK => some .locked
  | _, _ => none

/-- _State.next for a signal that is a member of _SIGNALS: return the mapped
state when the signal is in the transition table, else return self. -/
def next (s : StateName) (sig : Signal) : StateName :=
  (transTbl s sig).getD s

/-- Modelled from the spec: the transition table of spec section 4.1,
transcribed cell by cell from the markdown table; a dash cell is a
self-loop.  This definition follows the SPEC text, to be compared with
the source-derived function next. -/
def specNext : StateName → Signal → StateName
  | .disarmed, .ARM => .armedCountdown
  | .disarmed, .INSTANT_ARM => .armed
  | .disarmed, .LOCK => .lockedCountdown
  | .disarmed, .INSTANT_LOCK => .locked
  | .armedCountdown, .INSTANT_ARM => .armed
  | .armedCountdown, .LOCK => .lockedCountdown
  | .armedCountdown, .INSTANT_LOCK => .locked
  | .armedCountdown, .DISARM => .disarmed
  | .armedCountdown, .TIMOUT => .armed
  | .armed, .LOCK => .lockedCountdown
  | .armed, .INSTANT_LOCK => .locked
  | .armed, .DISARM => .disarmed
  | .armed, .TRIP => .trippedCountdown
  | .lockedCountdown, .ARM => .armedCountdown
  | .lockedCountdown, .INSTANT_ARM => .armed
  | .lockedCountdown, .INSTANT_LOCK => .locked
  | .lockedCountdown, .DISARM => .disarmed
  | .lockedCountdown, .TIMOUT => .locked
  | .locked, .ARM => .armedCountdown
  | .locked, .INSTANT_ARM => .armed
  | .locked, .DISARM => .disarmed
  | .locked, .TRIP => .trippedCountdown
  | .trippedCountdown, .ARM => .armed
  | .trippedCountdown, .INSTANT_ARM => .armed
  | .trippedCountdown, .LOCK => .locked
  | .trippedCountdown, .INSTANT_LOCK => .locked
  | .trippedCountdown, .DISARM => .disarmed
  | .trippedCountdown, .TIMOUT => .tripped
  | .tripped, .ARM => .armed
  | .tripped, .INSTANT_ARM => .armed
  | .tripped, .LOCK => .locked
  | .tripped, .INSTANT_LOCK => .locked
  | .tripped, .DISARM => .disarmed
  | s, _ => s

/-- Primitive side effects performed by entry and exit of the states, as
built from closures in StateMachine.__init__: playing or stopping the sound
attached to a state (every state has one, sfx of its own name), LED blink
configuration, countdown timer management, and the intruder alert. -/
inductive PyAction where
  | playSound : StateName → PyAction
  | stopSound : StateName → PyAction
  | setBlink : Bool → PyAction
  | squareBlink : Nat → PyAction
  | triangleBlink : Nat → PyAction
  | startTimer : Nat → StateName → PyAction
  | stopTimer : PyAction
  | intruderAlert : PyAction
deriving DecidableEq, Repr

/-- The entryCallbacks list of each state, from the stateObjs list in
StateMachine.__init__ (the startTimer closures receive 30 seconds and the
countdown sound of the corresponding state). -/
def entryCallbacks : StateName → List PyAction
  | .disarmed => [.setBlink false]
  | .armedCountdown => [.squareBlink 1, .startTimer 30 .armedCountdown]
  | .armed => [.triangleBlink 2]
  | .lockedCountdown => [.squareBlink 1, .startTimer 30 .lockedCountdown]
  | .locked => [.squareBlink 2]
  | .trippedCountdown => [.squareBlink 1, .startTimer 30 .trippedCountdown]
  | .tripped => [.triangleBlink 1, .intruderAlert]

/-- The exitCallbacks list of each state, from the stateObjs list: the three
countdown states stop their timer on exit, the others have no exit callbacks. -/
def exitCallbacks : StateName → List PyAction
  | .armedCountdown => [.stopTimer]
  | .lockedCountdown => [.stopTimer]
  | .trippedCountdown => [.stopTimer]
  | _ => []

/-- _State.entry: play the associated sound, then run the entry callbacks in
list order (every state in this machine has a sound). -/
def entrySeq (s : StateName) : List PyAction :=
  PyAction.playSound s :: entryCallbacks s

/-- _State.exit: stop the associated sound, then run the exit callbacks in
list order. -/
def exitSeq (s : StateName) : List PyAction :=
  PyAction.stopSound s :: exitCallbacks s

/-- _State.__eq__ compares the name string of self against the other operand;
for two _State operands Python resolves this to comparing the two name
strings (and != is the negation).  We model the comparison on state names. -/
def stateEq (a b : StateName) : Bool :=
  pyName a == pyName b

/-- The mutable data of the StateMachine that selectState touches: the
current state and the persisted stateFile value (the persisted slot is
none before the first write). -/
structure MachineState where
  currentState : StateName
  persistedState : Option String
deriving Repr

/-- StateMachine.selectState (stateMachine.py lines 343 to 351): compute
next = currentState.next(signal); when next differs from currentState
(state inequality is the name comparison of _State.__eq__) run the exit of
the current state, set the current state to next, and run the entry of
next; in every case write the name of the (possibly updated) current state
to the persisted slot.  The returned list is the trace of side-effect
actions performed, in order. -/
def selectState (m : MachineState) (sig : Signal) : MachineState × List PyAction :=
  let nextState := next m.currentState sig
  if stateEq nextState m.currentState then
    ({ m with persistedState := some (pyName m.currentState) }, [])
  else
    ({ currentState := nextState, persistedState := some (pyName nextState) },
     exitSeq m.currentState ++ entrySeq nextState)

theorem stateEq_iff (a b : StateName) : stateEq a b = true ↔ a = b := by
  revert a b; decide

theorem count_stopSound_once (a b : StateName) :
    (exitSeq a ++ entrySeq b).count (PyAction.stopSound a) = 1 := by
  revert a b; decide

theorem count_playSound_once (a b : StateName) :
    (exitSeq a ++ entrySeq b).count (PyAction.playSound b) = 1 := by
  revert a b; decide

/-- C1: for each of the seven states and seven signals, State.next returns
exactly the destination named by the table in spec section 4.1, with a
self-loop for every unlisted cell and no transitions beyond those listed. -/
theorem next_matches_spec_table : ∀ s : StateName, ∀ sig : Signal,
    next s sig = specNext s sig := by decide

/-- C2: when next = current.next(sig) differs from the current state,
selectState performs exactly the exit of the source followed by the entry
of the destination (exit stops the sound of the source then runs its exit
callbacks in order; entry plays the sound of the destination then runs its
entry callbacks in order), sets the current state to the destination, and
the exit of the source and the entry of the destination each occur exactly
once in the trace, exit first. -/
theorem selectState_transition_effects (s : StateName) (p : Option String)
    (sig : Signal) (h : next s sig ≠ s) :
    selectState ⟨s, p⟩ sig =
      (⟨next s sig, some (pyName (next s sig))⟩,
        exitSeq s ++ entrySeq (next s sig)) ∧
    (selectState ⟨s, p⟩ sig).2.count (PyAction.stopSound s) = 1 ∧
    (selectState ⟨s, p⟩ sig).2.count (PyAction.playSound (next s sig)) = 1 := by
  have hb : stateEq (next s sig) s = false := by
    cases hE : stateEq (next s sig) s
    · rfl
    · exact absurd ((stateEq_iff _ _).mp hE) h
  have he : selectState ⟨s, p⟩ sig =
      (⟨next s sig, some (pyName (next s sig))⟩,
        exitSeq s ++ entrySeq (next s sig)) := by
    simp [selectState, hb]
  refine ⟨he, ?_, ?_⟩
  · rw [he]; exact count_stopSound_once s (next s sig)
  · rw [he]; exact count_playSound_once s (next s sig)

theorem selectState_transition_effects_witness :
    next .disarmed .ARM ≠ .disarmed ∧
    selectState ⟨.disarmed, none⟩ .ARM =
      (⟨.armedCountdown, some (pyName .armedCountdown)⟩,
        exitSeq .disarmed ++ entrySeq .armedCountdown) :=
  ⟨by decide,
   (selectState_transition_effects .disarmed none .ARM (by decide)).1⟩

/-- C3: when the signal has no entry in the transition map of the current
state, selectState leaves the current state unchanged and performs no entry
and no exit action (the trace is empty); only the persisted write happens. -/
theorem selectState_selfLoop_noop (s : StateName) (p : Option String)
    (sig : Signal) (h : transTbl s sig = none) :
    selectState ⟨s, p⟩ sig = (⟨s, some (pyName s)⟩, []) := by
  have hn : next s sig = s := by simp [next, h]
  have hb : stateEq s s = true := (stateEq_iff s s).mpr rfl
  simp [selectState, hn, hb]

theorem selectState_selfLoop_noop_witness :
    transTbl .disarmed .DISARM = none ∧
    selectState ⟨.disarmed, none⟩ .DISARM =
      (⟨.disarmed, some (pyName .disarmed)⟩, []) :=
  ⟨rfl, selectState_selfLoop_noop .disarmed none .DISARM rfl⟩

/-- C4: after every selectState call the persisted slot holds exactly the
name of the current state, whether or not a transition occurred. -/
theorem selectState_always_persists (s : StateName) (p : Option String)
    (sig : Signal) :
    ((selectState ⟨s, p⟩ sig).1).persistedState =
      some (pyName ((selectState ⟨s, p⟩ sig).1).currentState) := by
  by_cases hb : stateEq (next s sig) s
  · simp [selectState, hb]
  · simp [selectState, hb]

/-
The _CountdownTimer of stateMachine.py (lines 43 to 68).  The countdown
closure runs: for i in range(countdownSeconds, 0, -1): if the stopper flag
is observed set at the top of the iteration, return without running the
terminal action; if a tick sound is configured and i < countdownSeconds,
play the tick; sleep one second.  After the loop, run the terminal action.
The stopper flag, once set by stop(), stays set; we model the moment it
becomes visible by the 1-based index of the first loop iteration whose
top-of-loop check observes it (none = never set).  The run of the closure
is a pure function returning the number of tick invocations and whether
the terminal action ran.
-/

/-- Whether the stopper flag is observed set at the top of the iteration
with 1-based index idx, when the flag first becomes visible at iteration
cancelAt (none = stop was never called). -/
def cancelSeen : Option Nat → Nat → Bool
  | none, _ => false
  | some k, idx => decide (k ≤ idx)

/-- The countdown loop with i iterations remaining out of N total (so the
current top-of-loop check is iteration number N - i + 1), carrying the
count of ticks played so far.  Returns (ticks, terminal action ran). -/
def countdownFrom (N : Nat) (hasSound : Bool) (cancelAt : Option Nat) :
    Nat → Nat → Nat × Bool
  | 0, ticks => (ticks, true)
  | i + 1, ticks =>
    if cancelSeen cancelAt (N - (i + 1) + 1) then (ticks, false)
    else countdownFrom N hasSound cancelAt i
      (if hasSound = true ∧ i + 1 < N then ticks + 1 else ticks)

/-- The full run of the countdown closure of _CountdownTimer for duration
N seconds: i starts at N (range from countdownSeconds down to 1). -/
def countdownRun (N : Nat) (hasSound : Bool) (cancelAt : Option Nat) :
    Nat × Bool :=
  countdownFrom N hasSound cancelAt N 0

theorem countdownFrom_none (N : Nat) :
    ∀ i t : Nat, i < N → countdownFrom N true none i t = (t + i, true) := by
  intro i
  induction i with
  | zero => intro t _; simp [countdownFrom]
  | succ j ih =>
    intro t h
    rw [countdownFrom]
    have hc : cancelSeen none (N - (j + 1) + 1) = false := rfl
    rw [hc]
    simp only [Bool.false_eq_true, if_false]
    rw [if_pos ⟨by trivial, h⟩]
    rw [ih (t + 1) (Nat.lt_of_succ_lt h)]
    have ht : t + 1 + j = t + (j + 1) := by omega
    rw [ht]

theorem countdownRun_none (N : Nat) (h : 1 ≤ N) :
    countdownRun N true none = (N - 1, true) := by
  obtain ⟨M, rfl⟩ : ∃ M, N = M + 1 := ⟨N - 1, by omega⟩
  unfold countdownRun
  rw [countdownFrom]
  have hc : cancelSeen none (M + 1 - (M + 1) + 1) = false := rfl
  rw [hc]
  simp only [Bool.false_eq_true, if_false]
  rw [if_neg (by omega)]
  rw [countdownFrom_none (M + 1) M 0 (by omega)]
  simp

theorem countdownFrom_cancel (N k : Nat) :
    ∀ i t : Nat, i < N → N - i < k → k ≤ N →
    countdownFrom N true (some k) i t = (t + (k - (N - i) - 1), false) := by
  intro i
  induction i with
  | zero => intro t _ h2 h3; omega
  | succ j ih =>
    intro t h1 h2 h3
    rw [countdownFrom]
    by_cases hk : k ≤ N - (j + 1) + 1
    · rw [if_pos (by simp [cancelSeen]; omega)]
      have hz : k - (N - (j + 1)) - 1 = 0 := by omega
      rw [hz]
      simp
    · rw [if_neg (by simp [cancelSeen]; omega)]
      rw [if_pos ⟨by trivial, h1⟩]
      rw [ih (t + 1) (by omega) (by omega) h3]
      have : t + 1 + (k - (N - j) - 1) = t + (k - (N - (j + 1)) - 1) := by omega
      rw [this]

theorem countdownRun_cancel (N k : Nat) (h1 : 1 ≤ k) (h2 : k ≤ N) :
    countdownRun N true (some k) = (k - 2, false) := by
  obtain ⟨M, rfl⟩ : ∃ M, N = M + 1 := ⟨N - 1, by omega⟩
  unfold countdownRun
  rw [countdownFrom]
  by_cases hk : k = 1
  · rw [if_pos (by simp [cancelSeen]; omega)]
    have : k - 2 = 0 := by omega
    rw [this]
  · rw [if_neg (by simp [cancelSeen]; omega)]
    rw [if_neg (by omega)]
    rw [countdownFrom_cancel (M + 1) k M 0 (by omega) (by omega) h2]
    have : k - (M + 1 - M) - 1 = k - 2 := by omega
    rw [this]
    simp

/-- C5: the countdown of a _CountdownTimer with a tick sound configured and
duration N at least 1, when never cancelled, plays the tick exactly N - 1
times (before each one-second step except the first) and runs the terminal
action exactly once; when the stopper flag is first observed set at the top
of iteration k (1-based, k within the N iterations), the loop returns
without running the terminal action, having played k - 2 ticks.  At N = 5
uncancelled this is 4 ticks and one terminal action; a stop() after two
seconds is observed at iteration 3 or 4, giving no terminal action and at
most two ticks beyond the one already played. -/
theorem countdownTimer_spec (N : Nat) (hN : 1 ≤ N) :
    countdownRun N true none = (N - 1, true) ∧
    (∀ k, 1 ≤ k → k ≤ N → countdownRun N true (some k) = (k - 2, false)) :=
  ⟨countdownRun_none N hN, fun k hk1 hk2 => countdownRun_cancel N k hk1 hk2⟩

theorem countdownTimer_spec_witness :
    countdownRun 5 true none = (4, true) ∧
    countdownRun 5 true (some 3) = (1, false) ∧
    countdownRun 5 true (some 4) = (2, false) :=
  ⟨(countdownTimer_spec 5 (by decide)).1,
   (countdownTimer_spec 5 (by decide)).2 3 (by decide) (by decide),
   (countdownTimer_spec 5 (by decide)).2 4 (by decide) (by decide)⟩

/-
KeypadListener (listeners.py).  The checkPasswd closure and the backspace
branch of getInput mutate the input buffer, the inactivity reset timer and
the sound engine; we model each as a pure function from the buffer to the
resulting buffer plus an ordered trace of the primitive operations
performed.  resetBuffer is _stopResetTimer followed by _clearBuffer.
-/

/-- Primitive operations of the keypad code paths: the three feedback
sounds, cancelling or (re)starting the 30 second inactivity timer, and
invoking the action passed to checkPasswd. -/
inductive KeypadEvent where
  | playCtrlKey
  | playWrongPass
  | playBackspace
  | stopResetTimer
  | startResetTimer
  | invokeAction
deriving DecidableEq, Repr

/-- The checkPasswd closure of KeypadListener.__init__ (listeners.py lines
50 to 58): empty buffer plays the ctrlKey sound and changes nothing;
a buffer equal to str(passwd) is reset (timer cancelled, buffer cleared)
and the action runs; any other buffer is reset and the wrongPass sound
plays.  Result: buffer after the call, plus the ordered operation trace. -/
def checkPasswd (buf : String) (passwd : Int) : String × List KeypadEvent :=
  if buf = "" then
    (buf, [KeypadEvent.playCtrlKey])
  else if buf = toString passwd then
    ("", [KeypadEvent.stopResetTimer, KeypadEvent.invokeAction])
  else
    ("", [KeypadEvent.stopResetTimer, KeypadEvent.playWrongPass])

/-- The BS branch of the getInput closure (listeners.py lines 96 to 102):
drop the last buffer character; if the resulting buffer is empty cancel
the inactivity timer, else restart it; then play the backspace sound. -/
def backspaceKey (buf : String) : String × List KeypadEvent :=
  let b := buf.dropRight 1
  (b, (if b = "" then [KeypadEvent.stopResetTimer]
       else [KeypadEvent.startResetTimer]) ++ [KeypadEvent.playBackspace])

/-- C6: the password-check procedure behaves by exactly three cases on the
buffer: empty buffer plays only the neutral feedback sound, leaves the
buffer untouched and does not invoke the action; a buffer equal to the
decimal string form of the password clears the buffer and cancels the
inactivity timer and then invokes the action; any other buffer clears the
buffer, cancels the timer, plays the failure sound, and does not invoke
the action. -/
theorem checkPasswd_cases (buf : String) (passwd : Int) :
    (buf = "" → checkPasswd buf passwd = (buf, [KeypadEvent.playCtrlKey])) ∧
    (buf ≠ "" → buf = toString passwd →
      checkPasswd buf passwd =
        ("", [KeypadEvent.stopResetTimer, KeypadEvent.invokeAction])) ∧
    (buf ≠ "" → buf ≠ toString passwd →
      checkPasswd buf passwd =
        ("", [KeypadEvent.stopResetTimer, KeypadEvent.playWrongPass])) := by
  refine ⟨fun h => ?_, fun h1 h2 => ?_, fun h1 h2 => ?_⟩
  · simp [checkPasswd, h]
  · unfold checkPasswd
    rw [if_neg h1, if_pos h2]
  · unfold checkPasswd
    rw [if_neg h1, if_neg h2]

theorem checkPasswd_cases_witness :
    checkPasswd "1234" 1234 =
      ("", [KeypadEvent.stopResetTimer, KeypadEvent.invokeAction]) ∧
    checkPasswd "9999" 1234 =
      ("", [KeypadEvent.stopResetTimer, KeypadEvent.playWrongPass]) ∧
    checkPasswd "" 1234 = ("", [KeypadEvent.playCtrlKey]) :=
  ⟨(checkPasswd_cases "1234" 1234).2.1 (by decide) (by decide),
   (checkPasswd_cases "9999" 1234).2.2 (by decide) (by decide),
   (checkPasswd_cases "" 1234).1 rfl⟩

/-- C7 counterexample: a backspace on an already empty buffer does NOT
restart the inactivity timer; it cancels it (the code takes the
stopResetTimer branch), so the timer is not reset unconditionally on
every backspace keystroke. -/
theorem backspace_emptyBuffer_no_restart :
    backspaceKey "" = ("", [KeypadEvent.stopResetTimer, KeypadEvent.playBackspace]) ∧
    KeypadEvent.startResetTimer ∉ (backspaceKey "").2 := by
  constructor
  · rfl
  · decide

/-- C7 amended: on every backspace keystroke the buffer drops its last
character and the backspace sound plays; the inactivity timer is restarted
only when the resulting buffer is nonempty, and is cancelled (not
restarted) when the resulting buffer is empty, which includes a no-op
backspace on an already empty buffer. -/
theorem backspace_timer_conditional (buf : String) :
    (backspaceKey buf).1 = buf.dropRight 1 ∧
    (buf.dropRight 1 = "" →
      (backspaceKey buf).2 =
        [KeypadEvent.stopResetTimer, KeypadEvent.playBackspace]) ∧
    (buf.dropRight 1 ≠ "" →
      (backspaceKey buf).2 =
        [KeypadEvent.startResetTimer, KeypadEvent.playBackspace]) := by
  refine ⟨rfl, fun h => ?_, fun h => ?_⟩ <;> simp [backspaceKey, h]

theorem backspace_timer_conditional_witness :
    (backspaceKey "12").2 =
      [KeypadEvent.startResetTimer, KeypadEvent.playBackspace] :=
  (backspace_timer_conditional "12").2.2 (by decide)

/-
_State objects as Python values, for the equality claim: beside the name a
_State carries its callback lists and sound, so two distinct objects can
share a name.  _State.__eq__ returns self.name == other; when other is a
_State, Python resolves the string-to-object comparison through the
reflected __eq__ of other, so the net effect is comparison of the two
name strings.
-/

/-- The attributes of a _State object (transition table omitted; it does
not participate in equality). -/
structure PyStateObj where
  name : String
  entryCbs : List PyAction
  exitCbs : List PyAction
  hasSound : Bool
deriving DecidableEq, Repr

/-- _State.__eq__ between two _State objects: name-string comparison. -/
def pyStateObjEq (a b : PyStateObj) : Bool :=
  a.name == b.name

/-- C8: equality of _State objects is decided by name, not identity: two
objects compare equal exactly when their names are equal, and there exist
two distinct objects sharing a name that compare equal (so name-based
membership checks would unify them). -/
theorem stateObjEq_by_name :
    (∀ a b : PyStateObj, pyStateObjEq a b = true ↔ a.name = b.name) ∧
    (∃ a b : PyStateObj, a ≠ b ∧ pyStateObjEq a b = true) := by
  constructor
  · intro a b
    simp [pyStateObjEq]
  · refine ⟨⟨ "armed", [], [], true⟩, ⟨ "armed", [], [], false⟩, ?_, ?_⟩
    · intro h
      cases h
    · rfl

/-
PipeListener.__init__ (listeners.py lines 175 to 198).  The filesystem
node at the pipe path is modelled as an optional record (none = no node);
mkfifo creates a FIFO whose initial permission bits depend on the umask
(a parameter of the model), chmod replaces the permission bits (the low
twelve bits of st_mode, as selected by st_mode % 0o10000 in the source).
-/

/-- A filesystem node: whether it is a FIFO, and its full st_mode value. -/
structure FsNode where
  isFifo : Bool
  mode : Nat
deriving DecidableEq, Repr

/-- Filesystem calls issued by PipeListener.__init__, in order. -/
inductive FsOp where
  | removeOp
  | mkfifoOp
  | chmodOp
deriving DecidableEq, Repr

/-- The pipe permission mode from the source: pipeMode = 0o0777. -/
def pipeMode : Nat := 0o777

/-- os.chmod on the model: replace the permission bits (st_mode modulo
0o10000) with perm, keeping the file-type bits. -/
def chmodMode (stMode perm : Nat) : Nat :=
  stMode - stMode % 0o10000 + perm

/-- PipeListener.__init__ repair logic: if no node exists, mkfifo then
chmod; else if the node is not a FIFO, remove it, mkfifo, chmod; else if
its permission bits differ from pipeMode, chmod only; else do nothing.
The parameter d is the st_mode a fresh FIFO receives from mkfifo before
the chmod call (umask dependent).  Returns the resulting node and the
ordered trace of filesystem calls. -/
def pipeInit (prior : Option FsNode) (d : Nat) : FsNode × List FsOp :=
  match prior with
  | none =>
    (⟨true, chmodMode d pipeMode⟩, [FsOp.mkfifoOp, FsOp.chmodOp])
  | some n =>
    if n.isFifo = false then
      (⟨true, chmodMode d pipeMode⟩, [FsOp.removeOp, FsOp.mkfifoOp, FsOp.chmodOp])
    else if n.mode % 0o10000 ≠ pipeMode then
      ({ n with mode := chmodMode n.mode pipeMode }, [FsOp.chmodOp])
    else
      (n, [])

theorem chmodMode_perm (m : Nat) : chmodMode m pipeMode % 0o10000 = pipeMode := by
  unfold chmodMode pipeMode
  omega

/-- C9: PipeListener construction establishes a FIFO with permission bits
0o777 by case analysis on the pre-existing node: no node leads to mkfifo
plus chmod; a non-FIFO node is removed and recreated with mkfifo plus
chmod; a FIFO with wrong permission bits receives only a chmod; a FIFO
with the right bits is left alone.  In every case the resulting node is a
FIFO whose permission bits equal 0o777. -/
theorem pipeInit_ensures_fifo (prior : Option FsNode) (d : Nat) :
    ((pipeInit prior d).1.isFifo = true ∧
     (pipeInit prior d).1.mode % 0o10000 = pipeMode) ∧
    (prior = none → (pipeInit prior d).2 = [FsOp.mkfifoOp, FsOp.chmodOp]) ∧
    (∀ n, prior = some n → n.isFifo = false →
      (pipeInit prior d).2 = [FsOp.removeOp, FsOp.mkfifoOp, FsOp.chmodOp]) ∧
    (∀ n, prior = some n → n.isFifo = true → n.mode % 0o10000 ≠ pipeMode →
      (pipeInit prior d).2 = [FsOp.chmodOp] ∧
      (pipeInit prior d).1 = { n with mode := chmodMode n.mode pipeMode }) ∧
    (∀ n, prior = some n → n.isFifo = true → n.mode % 0o10000 = pipeMode →
      (pipeInit prior d).2 = [] ∧ (pipeInit prior d).1 = n) := by
  match prior with
  | none =>
    refine ⟨⟨rfl, chmodMode_perm d⟩, fun _ => rfl, ?_, ?_, ?_⟩ <;>
      intro n hn <;> cases hn
  | some n =>
    by_cases hf : n.isFifo = false
    · refine ⟨⟨?_, ?_⟩, ?_, ?_, ?_, ?_⟩
      · simp [pipeInit, hf]
      · simp [pipeInit, hf]
        exact chmodMode_perm d
      · intro h; cases h
      · intro n2 hn2 _
        cases hn2
        simp [pipeInit, hf]
      · intro n2 hn2 ht
        cases hn2
        rw [hf] at ht
        cases ht
      · intro n2 hn2 ht _
        cases hn2
        rw [hf] at ht
        cases ht
    · have hf2 : n.isFifo = true := by
        cases hv : n.isFifo
        · exact absurd hv hf
        · rfl
      by_cases hp : n.mode % 0o10000 = pipeMode
      · refine ⟨⟨?_, ?_⟩, ?_, ?_, ?_, ?_⟩
        · simp [pipeInit, hf2, hp]
        · simp [pipeInit, hf2, hp]
        · intro h; cases h
        · intro n2 hn2 ht
          cases hn2
          rw [hf2] at ht
          cases ht
        · intro n2 hn2 _ hpn
          cases hn2
          exact absurd hp hpn
        · intro n2 hn2 _ _
          cases hn2
          constructor <;> simp [pipeInit, hf2, hp]
      · refine ⟨⟨?_, ?_⟩, ?_, ?_, ?_, ?_⟩
        · simp [pipeInit, hf2, hp]
        · simp [pipeInit, hf2, hp]
          exact chmodMode_perm n.mode
        · intro h; cases h
        · intro n2 hn2 ht
          cases hn2
          rw [hf2] at ht
          cases ht
        · intro n2 hn2 _ _
          cases hn2
          constructor <;> simp [pipeInit, hf2, hp]
        · intro n2 hn2 _ hpn
          cases hn2
          exact absurd hpn hp
      
theorem pipeInit_ensures_fifo_witness :
    (pipeInit (some ⟨false, 0o100644⟩) 0o10644).1.isFifo = true ∧
    (pipeInit (some ⟨false, 0o100644⟩) 0o10644).1.mode % 0o10000 = pipeMode ∧
    (pipeInit (some ⟨false, 0o100644⟩) 0o10644).2 =
      [FsOp.removeOp, FsOp.mkfifoOp, FsOp.chmodOp] :=
  ⟨(pipeInit_ensures_fifo (some ⟨false, 0o100644⟩) 0o10644).1.1,
   (pipeInit_ensures_fifo (some ⟨false, 0o100644⟩) 0o10644).1.2,
   (pipeInit_ensures_fifo (some ⟨false, 0o100644⟩) 0o10644).2.2.1
     ⟨false, 0o100644⟩ rfl rfl⟩

/-
_State.next with an arbitrary Python argument: the source first checks
membership of the argument in the _SIGNALS enumeration and raises
Exception with the message below when the argument is not a member.
-/

def illegalSignalMsg : String := "Illegal signal"

/-- A Python value passed to _State.next: either a member of _SIGNALS or
any other value (represented by a numeric token). -/
inductive PySignalArg where
  | valid : Signal → PySignalArg
  | invalid : Nat → PySignalArg
deriving DecidableEq, Repr

/-- _State.next (listeners source stateMachine.py lines 116 to 120) on an
arbitrary argument: a member of _SIGNALS yields the transition result (the
mapped state, or self when unmapped); any non-member raises the Illegal
signal exception, modelled as the error case of Except. -/
def nextChecked (s : StateName) (a : PySignalArg) : Except String StateName :=
  match a with
  | .valid sig => Except.ok (next s sig)
  | .invalid _ => Except.error illegalSignalMsg

/-- C10: for every argument that is not a member of the Signal enumeration
State.next raises the Illegal signal exception rather than returning a
state, and for every member it never raises (it returns the transition
result). -/
theorem nextChecked_total_on_signals :
    (∀ s : StateName, ∀ v : Nat,
      nextChecked s (PySignalArg.invalid v) = Except.error illegalSignalMsg) ∧
    (∀ s : StateName, ∀ sig : Signal,
      nextChecked s (PySignalArg.valid sig) = Except.ok (next s sig)) :=
  ⟨fun _ _ => rfl, fun _ _ => rfl⟩
